import Mathlib

/-!
A shallow embedding of the invoice-extraction pipeline
(`invoice_extraction_app.py`) and proofs of its specified properties.

The program chains: a loader that routes by filename suffix, a PDF
text-layer extractor with OCR fallback, an OCR stage with a small
preprocessing pass, and an LLM field-extraction call whose JSON reply is
parsed verbatim.

External collaborators (PyMuPDF, pdf2image, PIL, pytesseract, the OpenAI
client, and `json.loads`) are modelled as an environment of oracle
functions.  Every embedded function returns, next to its result, the
ordered list of external calls it performs, so that properties such as
"OCR is invoked exactly once per page" are statable.
-/

namespace InvoiceApp

/-- Byte payload of an uploaded artifact, as the list of its byte values. -/
abbrev Bytes := List Nat

/-- An in-memory bitmap (PIL image): its mode string ("P", "RGBA", "L", ...),
the ordered record of mode conversions applied to it so far, and an abstract
identifier of the underlying pixel content. -/
structure Img where
  mode : String
  convs : List String
  pix : Nat
deriving DecidableEq

/-- PIL `Image.convert`: returns the image re-encoded in the requested mode,
recording the conversion in order. -/
def pilConvert (img : Img) (m : String) : Img :=
  { img with mode := m, convs := img.convs ++ [m] }

/-- One page of an open PDF document: its embedded text layer, as returned
by `page.get_text()`. -/
structure Page where
  get_text : String
deriving DecidableEq

/-- JSON values, the result of parsing the model's reply with `json.loads`. -/
inductive Json where
  | null : Json
  | bool (b : Bool) : Json
  | num (n : Int) : Json
  | str (s : String) : Json
  | arr (elems : List Json) : Json
  | obj (fields : List (String × Json)) : Json

/-- The top-level keys of a JSON object, in order; `[]` on non-objects. -/
def Json.objKeys : Json → List String
  | Json.obj fields => fields.map Prod.fst
  | _ => []

/-- The exceptions the pipeline can raise: a PDF or image decoding error,
a failed LLM request, or a `json.loads` parse error on the reply content. -/
inductive PipeErr where
  | pdfDecodeError : PipeErr
  | imageDecodeError : PipeErr
  | llmRequestError : PipeErr
  | jsonParseError (content : String) : PipeErr
deriving DecidableEq

/-- One call to an external collaborator, in the order the program makes
them: `fitz.open`, `pdf2image.convert_from_bytes`, `PIL.Image.open`,
`pytesseract.image_to_string`, or `client.chat.completions.create`. -/
inductive Ev where
  | fitzOpen (bytes : Bytes) : Ev
  | pdf2image (bytes : Bytes) : Ev
  | pilOpen (bytes : Bytes) : Ev
  | tesseract (img : Img) : Ev
  | chat (model : String) (prompt : String) (temperature : Nat) : Ev
deriving DecidableEq

/-- The images on which the OCR engine (`pytesseract.image_to_string`) is
invoked within a list of external calls, in order. -/
def ocrEvents (evs : List Ev) : List Img :=
  evs.filterMap (fun e => match e with | Ev.tesseract i => some i | _ => none)

/-- The environment of external collaborators:
`fitz_open` opens a byte stream as a PDF (`none` = decoding error);
`convert_from_bytes` rasterizes the PDF's pages to images;
`image_open` decodes a byte payload as a single image (`none` = error);
`image_to_string` is the OCR engine;
`chat_completion model prompt temperature` performs the LLM request and
yields the reply message content (`none` = request failure);
`json_loads` parses a string as JSON (`none` = parse error). -/
structure Env where
  fitz_open : Bytes → Option (List Page)
  convert_from_bytes : Bytes → List Img
  image_open : Bytes → Option Img
  image_to_string : Img → String
  chat_completion : String → String → Nat → Option String
  json_loads : String → Option Json

/-- The uploaded artifact as the loader sees it: a file-like object with a
`name` and a byte payload returned by `read()`. -/
structure UploadedFile where
  name : String
  read : Bytes

/-- Python `str.lower()`: lowercase every character (ASCII letters; filename
suffixes, the only use site, are ASCII). -/
def pyLower (s : String) : String :=
  ⟨s.data.map Char.toLower⟩

/-- Python `str.endswith(t)`: does `s` end with the string `t`? -/
def pyEndsWith (s t : String) : Bool :=
  t.data.isSuffixOf s.data

/-- Python `str.strip()`: remove leading and trailing whitespace. -/
def pyStrip (s : String) : String :=
  ⟨((s.data.dropWhile Char.isWhitespace).reverse.dropWhile
      Char.isWhitespace).reverse⟩

/-- The concatenation of every page's text layer in document order
(the loop body of `extract_text_from_pdf`). -/
def pdfText (doc : List Page) : String :=
  doc.foldl (fun text page => text ++ page.get_text) ""

/-- `extract_text_from_pdf(bytes_data)`: open the byte stream as a PDF with
PyMuPDF and concatenate each page's text layer in document order. -/
def extract_text_from_pdf (env : Env) (bytes_data : Bytes) :
    Except PipeErr String × List Ev :=
  match env.fitz_open bytes_data with
  | none => (Except.error PipeErr.pdfDecodeError, [Ev.fitzOpen bytes_data])
  | some doc => (Except.ok (pdfText doc), [Ev.fitzOpen bytes_data])

/-- `preprocess_image(img)`: convert palette-mode ("P") images to full RGBA
first, then convert to single-channel grayscale ("L"). -/
def preprocess_image (img : Img) : Img :=
  let img1 := if img.mode = "P" then pilConvert img "RGBA" else img
  pilConvert img1 "L"

/-- `perform_ocr_on_images(images)`: OCR each image (after preprocessing)
and return the texts joined with newline separators, in input order. -/
def perform_ocr_on_images (env : Env) (images : List Img) :
    String × List Ev :=
  (String.intercalate "\n"
      (images.map (fun img => env.image_to_string (preprocess_image img))),
   images.map (fun img => Ev.tesseract (preprocess_image img)))

/-- `load_and_extract_text(uploaded_file)`: read the bytes, lowercase the
name; a name ending in ".pdf" takes the PDF path (direct extraction, OCR
fallback when the stripped text is empty), any other name takes the image
path (decode one image, OCR it). -/
def load_and_extract_text (env : Env) (uploaded_file : UploadedFile) :
    Except PipeErr String × List Ev :=
  let file_bytes := uploaded_file.read
  let name := pyLower uploaded_file.name
  if pyEndsWith name ".pdf" then
    match env.fitz_open file_bytes with
    | none => (Except.error PipeErr.pdfDecodeError, [Ev.fitzOpen file_bytes])
    | some doc =>
        let extracted := pdfText doc
        if pyStrip extracted ≠ "" then
          (Except.ok extracted, [Ev.fitzOpen file_bytes])
        else
          let images := env.convert_from_bytes file_bytes
          let r := perform_ocr_on_images env images
          (Except.ok r.1,
           [Ev.fitzOpen file_bytes, Ev.pdf2image file_bytes] ++ r.2)
  else
    match env.image_open file_bytes with
    | none => (Except.error PipeErr.imageDecodeError, [Ev.pilOpen file_bytes])
    | some img =>
        let r := perform_ocr_on_images env [img]
        (Except.ok r.1, [Ev.pilOpen file_bytes] ++ r.2)

/-- The fixed instruction text that precedes the raw invoice text in the
prompt of `extract_fields_with_llm`. -/
def promptPre : String :=
  "You are an invoice-processing assistant.\n" ++
  "Extract exactly the following into a JSON object:\n" ++
  "  • invoice_number (string)\n" ++
  "  • invoice_date (YYYY-MM-DD)\n" ++
  "  • vendor_name (string)\n" ++
  "  • total_amount (numeric with currency)\n" ++
  "  • products (array of objects, each with description, quantity, unit_price, line_total)\n" ++
  "If any field is missing, use an empty string or empty array. Do not return any extra keys.\n\n" ++
  "Here is the raw invoice text:\n```\n"

/-- The fixed instruction text that follows the raw invoice text in the
prompt of `extract_fields_with_llm`. -/
def promptPost : String :=
  "\n```\n\nRespond *only* with the JSON."

/-- `extract_fields_with_llm(text)`: build the fixed prompt embedding the
raw text verbatim, issue one call to the hosted model ("gpt-4",
temperature 0), and parse the reply's message content with `json.loads`. -/
def extract_fields_with_llm (env : Env) (text : String) :
    Except PipeErr Json × List Ev :=
  let prompt := promptPre ++ text ++ promptPost
  match env.chat_completion "gpt-4" prompt 0 with
  | none => (Except.error PipeErr.llmRequestError, [Ev.chat "gpt-4" prompt 0])
  | some content =>
      match env.json_loads content with
      | none => (Except.error (PipeErr.jsonParseError content),
                 [Ev.chat "gpt-4" prompt 0])
      | some fields => (Except.ok fields, [Ev.chat "gpt-4" prompt 0])

/-- `run_pipeline(uploaded_file)`: text acquisition then field extraction,
sequentially; an exception from either stage propagates unchanged. -/
def run_pipeline (env : Env) (uploaded_file : UploadedFile) :
    Except PipeErr Json × List Ev :=
  match load_and_extract_text env uploaded_file with
  | (Except.error e, evs) => (Except.error e, evs)
  | (Except.ok text, evs) =>
      let r := extract_fields_with_llm env text
      (r.1, evs ++ r.2)

/-- `run_pipeline_with_bytes(name, file_bytes)`: wrap the bytes in a
file-like object carrying the given name and run the pipeline on it. -/
def run_pipeline_with_bytes (env : Env) (name : String) (file_bytes : Bytes) :
    Except PipeErr Json × List Ev :=
  let fake_file : UploadedFile := { name := name, read := file_bytes }
  run_pipeline env fake_file

/-- Does a loader result carry no error other than an image-decoding error?
(Used to state that the loader raises nothing for unsupported extensions.) -/
def onlyDecodeError (r : Except PipeErr String) : Bool :=
  match r with
  | Except.error PipeErr.imageDecodeError => true
  | Except.error _ => false
  | Except.ok _ => true

/-- A concrete palette-mode test image. -/
def imgP : Img := { mode := "P", convs := [], pix := 3 }

/-- A concrete RGB test image. -/
def imgRGB : Img := { mode := "RGB", convs := [], pix := 7 }

/-- A test page carrying a native text layer. -/
def pageW : Page := { get_text := "Invoice 123" }

/-- A test page whose text layer is whitespace only. -/
def pageE : Page := { get_text := " " }

/-- A model reply object with exactly the five specified keys. -/
def kvsW : List (String × Json) :=
  [("invoice_number", Json.str "123"),
   ("invoice_date", Json.str "2024-01-01"),
   ("vendor_name", Json.str "Acme"),
   ("total_amount", Json.str "$45.00"),
   ("products", Json.arr [])]

/-- A concrete test environment: bytes `[1]` decode to a native PDF, bytes
`[3]` to a scanned PDF that rasterizes to one image, bytes `[2]` to a
palette-mode image; the model replies "REPLY", which parses to `kvsW`. -/
def envW : Env :=
  { fitz_open := fun b =>
      if b = [1] then some [pageW]
      else if b = [3] then some [pageE]
      else none,
    convert_from_bytes := fun b => if b = [3] then [imgRGB] else [],
    image_open := fun b => if b = [2] then some imgP else none,
    image_to_string := fun img => if img.pix = 3 then "ocr3" else "ocr7",
    chat_completion := fun _ _ _ => some "REPLY",
    json_loads := fun s => if s = "REPLY" then some (Json.obj kvsW) else none }

/-- A concrete test environment whose model reply never parses as JSON. -/
def envB : Env :=
  { fitz_open := fun _ => none,
    convert_from_bytes := fun _ => [],
    image_open := fun _ => some imgP,
    image_to_string := fun _ => "scanned",
    chat_completion := fun _ _ _ => some "notjson",
    json_loads := fun _ => none }

/-- The OCR-call record distributes over appended call lists. -/
theorem ocrEvents_append (a b : List Ev) :
    ocrEvents (a ++ b) = ocrEvents a ++ ocrEvents b := by
  simp [ocrEvents, List.filterMap_append]

/-- The OCR-call record of a list of `tesseract` calls is the list of the
images they were called on. -/
theorem ocrEvents_tesseract_map (l : List Img) (g : Img → Img) :
    ocrEvents (l.map (fun i => Ev.tesseract (g i))) = l.map g := by
  induction l with
  | nil => rfl
  | cons x xs ih => simpa [ocrEvents, List.filterMap_cons] using ih

/-- Joining a one-element list is the identity. -/
theorem intercalate_singleton (s a : String) :
    String.intercalate s [a] = a := rfl

/-- C1: for a PDF upload whose concatenated text layer is non-empty after
whitespace-stripping, `load_and_extract_text` returns that directly
extracted text unchanged, and the OCR engine is never invoked. -/
theorem c1_pdf_direct_extraction_no_ocr (env : Env) (f : UploadedFile)
    (doc : List Page)
    (hname : pyEndsWith (pyLower f.name) ".pdf" = true)
    (hopen : env.fitz_open f.read = some doc)
    (hne : pyStrip (pdfText doc) ≠ "") :
    load_and_extract_text env f =
      (Except.ok (pdfText doc), [Ev.fitzOpen f.read])
    ∧ ocrEvents (load_and_extract_text env f).2 = [] := by
  have h : load_and_extract_text env f =
      (Except.ok (pdfText doc), [Ev.fitzOpen f.read]) := by
    simp [load_and_extract_text, hname, hopen, hne]
  exact ⟨h, by simp [h, ocrEvents]⟩

/-- C1 witness: a concrete native PDF takes the direct-extraction path. -/
theorem c1_witness :
    load_and_extract_text envW { name := "a.pdf", read := [1] } =
      (Except.ok (pdfText [pageW]), [Ev.fitzOpen [1]])
    ∧ ocrEvents (load_and_extract_text envW { name := "a.pdf", read := [1] }).2 = [] :=
  c1_pdf_direct_extraction_no_ocr envW { name := "a.pdf", read := [1] } [pageW]
    (by decide) (by decide) (by decide)

/-- C2: for a PDF upload whose whitespace-stripped text layer is empty, the
pages are rasterized, OCR runs exactly once per page, and the result is the
per-page OCR output joined with newline separators in page order. -/
theorem c2_scanned_pdf_ocr_fallback (env : Env) (f : UploadedFile)
    (doc : List Page)
    (hname : pyEndsWith (pyLower f.name) ".pdf" = true)
    (hopen : env.fitz_open f.read = some doc)
    (hempty : pyStrip (pdfText doc) = "")
    (hpages : (env.convert_from_bytes f.read).length = doc.length) :
    (load_and_extract_text env f).1 =
      Except.ok (String.intercalate "\n"
        ((env.convert_from_bytes f.read).map
          (fun img => env.image_to_string (preprocess_image img))))
    ∧ ocrEvents (load_and_extract_text env f).2 =
        (env.convert_from_bytes f.read).map preprocess_image
    ∧ (ocrEvents (load_and_extract_text env f).2).length = doc.length := by
  have h : load_and_extract_text env f =
      (Except.ok (String.intercalate "\n"
          ((env.convert_from_bytes f.read).map
            (fun img => env.image_to_string (preprocess_image img)))),
       [Ev.fitzOpen f.read, Ev.pdf2image f.read] ++
         (env.convert_from_bytes f.read).map
           (fun img => Ev.tesseract (preprocess_image img))) := by
    simp [load_and_extract_text, perform_ocr_on_images, hname, hopen, hempty]
  have hev : ocrEvents (load_and_extract_text env f).2 =
      (env.convert_from_bytes f.read).map preprocess_image := by
    rw [h]
    show ocrEvents ([Ev.fitzOpen f.read, Ev.pdf2image f.read] ++ _) = _
    rw [ocrEvents_append, ocrEvents_tesseract_map]
    simp [ocrEvents]
  refine ⟨by rw [h], hev, ?_⟩
  rw [hev, List.length_map, hpages]

/-- C2 witness: a concrete scanned PDF with one page takes the OCR
fallback, with one OCR call. -/
theorem c2_witness :
    (load_and_extract_text envW { name := "b.pdf", read := [3] }).1 =
      Except.ok (String.intercalate "\n"
        ((envW.convert_from_bytes [3]).map
          (fun img => envW.image_to_string (preprocess_image img))))
    ∧ ocrEvents (load_and_extract_text envW { name := "b.pdf", read := [3] }).2 =
        (envW.convert_from_bytes [3]).map preprocess_image
    ∧ (ocrEvents (load_and_extract_text envW { name := "b.pdf", read := [3] }).2).length =
        ([pageE] : List Page).length :=
  c2_scanned_pdf_ocr_fallback envW { name := "b.pdf", read := [3] } [pageE]
    (by decide) (by decide) (by decide) (by decide)

/-- C3: a non-PDF upload that decodes as an image is OCR'd exactly once, on
exactly that one image, and its OCR text is returned. -/
theorem c3_image_input_single_ocr (env : Env) (f : UploadedFile) (img : Img)
    (hname : pyEndsWith (pyLower f.name) ".pdf" = false)
    (hopen : env.image_open f.read = some img) :
    load_and_extract_text env f =
      (Except.ok (env.image_to_string (preprocess_image img)),
       [Ev.pilOpen f.read, Ev.tesseract (preprocess_image img)])
    ∧ ocrEvents (load_and_extract_text env f).2 = [preprocess_image img] := by
  have h : load_and_extract_text env f =
      (Except.ok (env.image_to_string (preprocess_image img)),
       [Ev.pilOpen f.read, Ev.tesseract (preprocess_image img)]) := by
    simp [load_and_extract_text, perform_ocr_on_images, hname, hopen,
      intercalate_singleton]
  exact ⟨h, by simp [h, ocrEvents]⟩

/-- C3 witness: a concrete image upload is OCR'd exactly once. -/
theorem c3_witness :
    load_and_extract_text envW { name := "scan.JPG", read := [2] } =
      (Except.ok (envW.image_to_string (preprocess_image imgP)),
       [Ev.pilOpen [2], Ev.tesseract (preprocess_image imgP)])
    ∧ ocrEvents (load_and_extract_text envW { name := "scan.JPG", read := [2] }).2 =
        [preprocess_image imgP] :=
  c3_image_input_single_ocr envW { name := "scan.JPG", read := [2] } imgP
    (by decide) (by decide)

/-- C4: when the model's message content parses as a JSON object with
exactly the five specified keys, `extract_fields_with_llm` returns that
object verbatim — the same five keys, their values, and no extra keys. -/
theorem c4_llm_response_roundtrip (env : Env) (text content : String)
    (kvs : List (String × Json))
    (hchat : env.chat_completion "gpt-4" (promptPre ++ text ++ promptPost) 0 =
      some content)
    (hparse : env.json_loads content = some (Json.obj kvs))
    (hkeys : kvs.map Prod.fst =
      ["invoice_number", "invoice_date", "vendor_name", "total_amount",
       "products"]) :
    (extract_fields_with_llm env text).1 = Except.ok (Json.obj kvs)
    ∧ Json.objKeys (Json.obj kvs) =
        ["invoice_number", "invoice_date", "vendor_name", "total_amount",
         "products"] := by
  constructor
  · simp [extract_fields_with_llm, hchat, hparse]
  · simpa [Json.objKeys] using hkeys

/-- C4 witness: a concrete five-key model reply is returned verbatim. -/
theorem c4_witness :
    (extract_fields_with_llm envW "T").1 = Except.ok (Json.obj kvsW)
    ∧ Json.objKeys (Json.obj kvsW) =
        ["invoice_number", "invoice_date", "vendor_name", "total_amount",
         "products"] :=
  c4_llm_response_roundtrip envW "T" "REPLY" kvsW rfl rfl rfl

/-- C5: `run_pipeline` chains text extraction and field extraction
sequentially; an error from the first stage propagates unchanged, a
successful first stage hands its text to the second stage with no caching
or retry, and a malformed (non-JSON) model reply surfaces as an uncaught
parse error. -/
theorem c5_pipeline_error_propagation (env : Env) (f : UploadedFile) :
    (∀ e, (load_and_extract_text env f).1 = Except.error e →
        (run_pipeline env f).1 = Except.error e)
    ∧ (∀ text, (load_and_extract_text env f).1 = Except.ok text →
        (run_pipeline env f).1 = (extract_fields_with_llm env text).1)
    ∧ (∀ text content, (load_and_extract_text env f).1 = Except.ok text →
        env.chat_completion "gpt-4" (promptPre ++ text ++ promptPost) 0 =
          some content →
        env.json_loads content = none →
        (run_pipeline env f).1 =
          Except.error (PipeErr.jsonParseError content)) := by
  have hok : ∀ text, (load_and_extract_text env f).1 = Except.ok text →
      (run_pipeline env f).1 = (extract_fields_with_llm env text).1 := by
    intro text ht
    unfold run_pipeline
    rcases h : load_and_extract_text env f with ⟨res, evs⟩
    rw [h] at ht
    simp at ht
    subst ht
    rfl
  refine ⟨?_, hok, ?_⟩
  · intro e he
    unfold run_pipeline
    rcases h : load_and_extract_text env f with ⟨res, evs⟩
    rw [h] at he
    simp at he
    subst he
    rfl
  · intro text content ht hchat hparse
    rw [hok text ht]
    simp [extract_fields_with_llm, hchat, hparse]

/-- C5 witness: with a model reply that is not JSON, the parse error
propagates out of `run_pipeline` uncaught. -/
theorem c5_witness :
    (run_pipeline envB { name := "x.png", read := [9] }).1 =
      Except.error (PipeErr.jsonParseError "notjson") :=
  (c5_pipeline_error_propagation envB { name := "x.png", read := [9] }).2.2
    "scanned" "notjson" rfl rfl rfl

/-- C6: the OCR stage converts palette-mode images to RGBA first, then
every image to grayscale "L", runs recognition on each preprocessed image,
and joins the per-image texts with newline separators in input order. -/
theorem c6_ocr_preprocessing_and_join (env : Env) (images : List Img) :
    (perform_ocr_on_images env images).1 =
      String.intercalate "\n"
        (images.map (fun img => env.image_to_string (preprocess_image img)))
    ∧ ocrEvents (perform_ocr_on_images env images).2 =
        images.map preprocess_image
    ∧ ∀ img : Img,
        (preprocess_image img).mode = "L" ∧
        (preprocess_image img).convs =
          img.convs ++ (if img.mode = "P" then ["RGBA", "L"] else ["L"]) := by
  refine ⟨rfl, ?_, fun img => ?_⟩
  · show ocrEvents (images.map (fun img => Ev.tesseract (preprocess_image img))) = _
    exact ocrEvents_tesseract_map images preprocess_image
  · by_cases h : img.mode = "P" <;> simp [preprocess_image, pilConvert, h]

/-- C7: the loader routes by filename suffix alone — every non-".pdf" name
behaves exactly like an image name, and the loader raises no error of its
own for unsupported extensions (only a downstream image-decoding error is
possible). -/
theorem c7_loader_suffix_routing (env : Env) (name : String) (bytes : Bytes)
    (hname : pyEndsWith (pyLower name) ".pdf" = false) :
    load_and_extract_text env { name := name, read := bytes } =
      load_and_extract_text env { name := "img.png", read := bytes }
    ∧ onlyDecodeError
        (load_and_extract_text env { name := name, read := bytes }).1 = true := by
  have h2 : pyEndsWith (pyLower "img.png") ".pdf" = false := by decide
  constructor
  · simp [load_and_extract_text, hname, h2]
  · cases h : env.image_open bytes with
    | none => simp [load_and_extract_text, hname, h, onlyDecodeError]
    | some img => simp [load_and_extract_text, hname, h, onlyDecodeError]

/-- C7 witness: an unsupported extension is routed to the image path with
no loader-layer error. -/
theorem c7_witness :
    load_and_extract_text envW { name := "notes.txt", read := [2] } =
      load_and_extract_text envW { name := "img.png", read := [2] }
    ∧ onlyDecodeError
        (load_and_extract_text envW { name := "notes.txt", read := [2] }).1 = true :=
  c7_loader_suffix_routing envW "notes.txt" [2] (by decide)

/-- C8: for every input text, `extract_fields_with_llm` issues exactly one
call to the hosted model, with the fixed model identifier "gpt-4",
temperature 0, and a single fixed prompt embedding the raw text verbatim
between two constant instruction strings. -/
theorem c8_llm_single_fixed_call (env : Env) (text : String) :
    (extract_fields_with_llm env text).2 =
      [Ev.chat "gpt-4" (promptPre ++ text ++ promptPost) 0] := by
  unfold extract_fields_with_llm
  cases h : env.chat_completion "gpt-4" (promptPre ++ text ++ promptPost) 0 with
  | none => simp [h]
  | some content => cases hj : env.json_loads content <;> simp [h, hj]

/-- C9: the byte-level entry point is equivalent to running the pipeline on
a file-like object carrying the same name and bytes. -/
theorem c9_bytes_entry_equivalence (env : Env) (name : String)
    (file_bytes : Bytes) :
    run_pipeline_with_bytes env name file_bytes =
      run_pipeline env { name := name, read := file_bytes } := rfl

/-- C10: the suffix check is applied to the lowercased filename, so every
name whose lowercase form ends in ".pdf" (any capitalization) behaves
exactly like a lowercase ".pdf" name. -/
theorem c10_suffix_case_insensitive (env : Env) (name : String)
    (bytes : Bytes)
    (hname : pyEndsWith (pyLower name) ".pdf" = true) :
    load_and_extract_text env { name := name, read := bytes } =
      load_and_extract_text env { name := "doc.pdf", read := bytes } := by
  have h2 : pyEndsWith (pyLower "doc.pdf") ".pdf" = true := by decide
  simp [load_and_extract_text, hname, h2]

/-- C10 witness: an uppercase ".PDF" name takes the PDF path exactly as a
lowercase one does. -/
theorem c10_witness :
    load_and_extract_text envW { name := "INVOICE.PDF", read := [1] } =
      load_and_extract_text envW { name := "doc.pdf", read := [1] } :=
  c10_suffix_case_insensitive envW "INVOICE.PDF" [1] (by decide)

end InvoiceApp
